import Mathlib

/-!
Shallow embedding of the dicom-json converter (src/main.rs) and verification of its
specification claims.

The embedding translates the program's data model and the pipeline stages with real
design content — the value normalizer (`convert_primitive_value`, `extract_element_value`),
the per-file extractor (`process_file`), the basic/comprehensive renderers, the hierarchy
aggregator (`organize_by_hierarchy`), and the top-level run outcome — into executable Lean
definitions. The external dataset decoder (tag/VR/typed-value triples, native to-string
conversion, optional element lookup) is modelled from the spec's description of that
collaborator; everything else follows the Rust source directly. Rust `HashMap`s are
modelled as association lists with unique-key insert/lookup semantics.
-/

namespace DicomJson

/-- A DICOM tag identifier: group and element numbers (`u16` in the source). -/
structure TagId where
  group : Nat
  elem : Nat
  deriving DecidableEq, Repr

/-- Well-known tag (7FE0,0010) PixelData. -/
def pixelDataTag : TagId := ⟨0x7FE0, 0x0010⟩

/-- Well-known tag (0008,0016) SOPClassUID. -/
def sopClassUidTag : TagId := ⟨0x0008, 0x0016⟩

/-- Well-known tag (0008,0018) SOPInstanceUID. -/
def sopInstanceUidTag : TagId := ⟨0x0008, 0x0018⟩

/-- Well-known tag (0020,0013) InstanceNumber. -/
def instanceNumberTag : TagId := ⟨0x0020, 0x0013⟩

/-- Well-known tag (0020,000D) StudyInstanceUID. -/
def studyInstanceUidTag : TagId := ⟨0x0020, 0x000D⟩

/-- Well-known tag (0020,000E) SeriesInstanceUID. -/
def seriesInstanceUidTag : TagId := ⟨0x0020, 0x000E⟩

/-- Well-known tag (0008,0020) StudyDate. -/
def studyDateTag : TagId := ⟨0x0008, 0x0020⟩

/-- Well-known tag (0008,0030) StudyTime. -/
def studyTimeTag : TagId := ⟨0x0008, 0x0030⟩

/-- Well-known tag (0008,1030) StudyDescription. -/
def studyDescriptionTag : TagId := ⟨0x0008, 0x1030⟩

/-- Well-known tag (0020,0011) SeriesNumber. -/
def seriesNumberTag : TagId := ⟨0x0020, 0x0011⟩

/-- Well-known tag (0008,103E) SeriesDescription. -/
def seriesDescriptionTag : TagId := ⟨0x0008, 0x103E⟩

/-- Well-known tag (0008,0060) Modality. -/
def modalityTag : TagId := ⟨0x0008, 0x0060⟩

/-- Well-known tag (0010,0020) PatientID. -/
def patientIdTag : TagId := ⟨0x0010, 0x0020⟩

/-- Well-known tag (0010,0010) PatientName. -/
def patientNameTag : TagId := ⟨0x0010, 0x0010⟩

/-- Well-known tag (0010,0030) PatientBirthDate. -/
def patientBirthDateTag : TagId := ⟨0x0010, 0x0030⟩

/-- Well-known tag (0010,0040) PatientSex. -/
def patientSexTag : TagId := ⟨0x0010, 0x0040⟩

/-- Well-known tag (0010,1010) PatientAge. -/
def patientAgeTag : TagId := ⟨0x0010, 0x1010⟩

/-- A JSON number, as carried by `serde_json::Number` (unsigned, signed, or floating). -/
inductive JNum where
  | nat (n : Nat)
  | int (i : Int)
  | float (x : Float)

/-- A JSON value (`serde_json::Value`); objects are field lists. -/
inductive Json where
  | null
  | bool (b : Bool)
  | num (n : JNum)
  | str (s : String)
  | arr (xs : List Json)
  | obj (fields : List (String × Json))

/-- Modelled from the spec: the external decoder's primitive element value — one of
"unsigned/signed integer vectors of varying bit widths" (8/16/32/64), "32/64-bit float
vectors, string or string-list, date/time/datetime lists, tag-reference lists", or the
empty value. Date/time/datetime entries are carried as their canonical textual form,
since only that rendering of them is observable downstream. -/
inductive PrimitiveValue where
  | empty
  | strs (vals : List String)
  | str (s : String)
  | tags (vals : List TagId)
  | u8 (vals : List Nat)
  | i16 (vals : List Int)
  | u16 (vals : List Nat)
  | i32 (vals : List Int)
  | u32 (vals : List Nat)
  | i64 (vals : List Int)
  | u64 (vals : List Nat)
  | f32 (vals : List Float)
  | f64 (vals : List Float)
  | date (vals : List String)
  | time (vals : List String)
  | datetime (vals : List String)

/-- Uppercase hexadecimal digit character, as produced by Rust's upper-hex formatting. -/
def hexDigitU (n : Nat) : Char :=
  if n < 10 then Char.ofNat (48 + n) else Char.ofNat (55 + n)

/-- The four uppercase hex digits of a 16-bit number, most significant first
(Rust zero-padded width-4 upper-hex formatting of a `u16`). -/
def hex4 (n : Nat) : List Char :=
  [hexDigitU (n / 4096 % 16), hexDigitU (n / 256 % 16), hexDigitU (n / 16 % 16),
   hexDigitU (n % 16)]

/-- The canonical tag key string, modelling the Rust formatting of a tag as
four upper-hex digits of the group, a comma, four upper-hex digits of the element,
wrapped in parentheses. -/
def formatTag (g e : Nat) : String :=
  String.mk (('(' :: hex4 g) ++ (',' :: hex4 e) ++ [')'])

/-- Whether a character is an uppercase hexadecimal digit. -/
def isHexU (c : Char) : Bool :=
  (('0' ≤ c) && (c ≤ '9')) || (('A' ≤ c) && (c ≤ 'F'))

/-- Whether a character list is a canonical tag key: exactly eleven characters, an
opening parenthesis, four uppercase hex digits, a comma, four uppercase hex digits, a
closing parenthesis. -/
def isCanonicalKeyL : List Char → Bool
  | [c0, c1, c2, c3, c4, c5, c6, c7, c8, c9, c10] =>
      (c0 == '(') && isHexU c1 && isHexU c2 && isHexU c3 && isHexU c4 &&
      (c5 == ',') && isHexU c6 && isHexU c7 && isHexU c8 && isHexU c9 && (c10 == ')')
  | _ => false

/-- Whether a string is a canonical tag key. -/
def isCanonicalKey (s : String) : Bool :=
  isCanonicalKeyL s.data

/-- Models the Rust debug dump of a primitive value, used by the normalizer's catch-all
arm. Only the fact that the dump is a single string is observable in the claims; the
rendering below is a representative model of the derived Debug output. -/
def debugDump : PrimitiveValue → String
  | .empty => "Empty"
  | .strs vals => "Strs(" ++ toString vals ++ ")"
  | .str s => "Str(" ++ s ++ ")"
  | .tags vals => "Tags(" ++ toString (vals.map (fun t => formatTag t.group t.elem)) ++ ")"
  | .u8 vals => "U8(" ++ toString vals ++ ")"
  | .i16 vals => "I16(" ++ toString vals ++ ")"
  | .u16 vals => "U16(" ++ toString vals ++ ")"
  | .i32 vals => "I32(" ++ toString vals ++ ")"
  | .u32 vals => "U32(" ++ toString vals ++ ")"
  | .i64 vals => "I64(" ++ toString vals ++ ")"
  | .u64 vals => "U64(" ++ toString vals ++ ")"
  | .f32 vals => "F32([" ++ toString vals.length ++ " values])"
  | .f64 vals => "F64([" ++ toString vals.length ++ " values])"
  | .date vals => "Date(" ++ toString vals ++ ")"
  | .time vals => "Time(" ++ toString vals ++ ")"
  | .datetime vals => "DateTime(" ++ toString vals ++ ")"

/-- Collapse rule shared by the value normalizer's vector arms: a one-element vector
renders as the rendered element itself, anything else as the array of rendered elements
in order (the Rust `if vals.len() == 1 { scalar } else { array }` shape). -/
def collapse1 {α : Type} (render : α → Json) : List α → Json
  | [v] => render v
  | vals => Json.arr (vals.map render)

/-- The value normalizer's kind dispatch (`DicomProcessor::convert_primitive_value`):
8/16/32-bit integer vectors, float vectors, strings, date-like vectors collapse by the
length-1 rule; tag vectors always render as an array of canonical tag strings; every
other kind (including 64-bit integer vectors and the empty value) falls to the
debug-dump string arm. -/
def convert_primitive_value : PrimitiveValue → Json
  | .u8 vals => collapse1 (fun v => Json.num (JNum.nat v)) vals
  | .u16 vals => collapse1 (fun v => Json.num (JNum.nat v)) vals
  | .u32 vals => collapse1 (fun v => Json.num (JNum.nat v)) vals
  | .i16 vals => collapse1 (fun v => Json.num (JNum.int v)) vals
  | .i32 vals => collapse1 (fun v => Json.num (JNum.int v)) vals
  | .f32 vals => collapse1 (fun v => Json.num (JNum.float v)) vals
  | .f64 vals => collapse1 (fun v => Json.num (JNum.float v)) vals
  | .str s => Json.str s
  | .strs vals => collapse1 (fun s => Json.str s) vals
  | .tags vals =>
      Json.arr (vals.map (fun t => Json.str (formatTag t.group t.elem)))
  | .date vals => collapse1 (fun d => Json.str d) vals
  | .time vals => collapse1 (fun t => Json.str t) vals
  | .datetime vals => collapse1 (fun dt => Json.str dt) vals
  | p => Json.str (debugDump p)

/-- Modelled from the spec: the decoder's element value — a primitive value, a nested
sequence (with the byte-length reading the code takes its placeholder count from, which
may be undefined), or an encapsulated pixel sequence. -/
inductive DVal where
  | primitive (p : PrimitiveValue)
  | sequence (len : Option Nat)
  | pixelSeq

/-- Models the Rust debug dump of a whole element value (the Raw-format dump and the
normalizer's non-primitive fallback). -/
def dumpValue : DVal → String
  | .primitive p => "Primitive(" ++ debugDump p ++ ")"
  | .sequence len => "Sequence(" ++ toString (len.getD 0) ++ " bytes)"
  | .pixelSeq => "PixelSequence"

/-- Modelled from the spec: one decoded dataset element as exposed by the external
decoder — a tag/VR/typed-value triple together with the outcome of the decoder's
native to-string conversion of the element, which either yields a string or fails. -/
structure Element where
  tag : TagId
  vr : String
  val : DVal
  toStr : Option String

/-- Modelled from the spec: the decoded dataset object — its element sequence in the
decoder's native order plus the file-meta transfer syntax. -/
structure Dataset where
  elements : List Element
  transferSyntaxStr : String

/-- Modelled from the spec: the decoder's access error kind (never produced by the
optional element lookup, for which absence is not an error). -/
inductive DecoderErr where
  | accessError

/-- Modelled from the spec: the decoder's optional element lookup. A missing tag is not
an error: the lookup succeeds with `none` (spec: missing well-known tags are resolved
via optional defaults, "never an error"). -/
def element_opt (ds : Dataset) (t : TagId) : Except DecoderErr (Option Element) :=
  Except.ok (ds.elements.find? (fun e => e.tag == t))

/-- The Rust `Result::is_ok`. -/
def isOkE {ε α : Type} : Except ε α → Bool
  | .ok _ => true
  | .error _ => false

/-- The Rust `result.ok().flatten()` applied to the optional element lookup. -/
def flattenOpt {ε : Type} {α : Type} : Except ε (Option α) → Option α
  | .ok o => o
  | .error _ => none

/-- The four output formats. -/
inductive OutputFormat where
  | basic
  | comprehensive
  | medical
  | raw
  deriving DecidableEq

/-- The CLI configuration fields the extractor reads. `dict` models the external
standard data dictionary lookup (tag to human-readable alias). -/
structure Config where
  format : OutputFormat
  include_private : Bool
  dict : TagId → Option String

/-- One extracted tag record (`TagInfo` in the source). -/
structure TagInfo where
  tag : String
  vr : String
  name : Option String
  value : Json
  raw_value : Option String
  is_private : Bool

/-- Per-instance metadata (`DicomMetadata` in the source); the two `HashMap` fields are
association lists with unique keys. -/
structure DicomMetadata where
  tags : List (String × TagInfo)
  transfer_syntax : Option String
  sop_class_uid : Option String
  file_meta_information : List (String × TagInfo)

/-- One extracted instance (`DicomInstance` in the source). -/
structure DicomInstance where
  sop_instance_uid : String
  instance_number : Option String
  file_path : String
  metadata : DicomMetadata
  has_pixel_data : Bool

/-- Association-list lookup with the `HashMap::get` semantics (keys are unique; the
first match is returned). -/
def alookup {β : Type} (k : String) : List (String × β) → Option β
  | [] => none
  | (k2, v2) :: rest => if k2 = k then some v2 else alookup k rest

/-- Association-list insert with the `HashMap::insert` semantics: replace the value at
an existing key, otherwise add a new entry. -/
def insertA {β : Type} (k : String) (v : β) : List (String × β) → List (String × β)
  | [] => [(k, v)]
  | (k2, v2) :: rest => if k2 = k then (k, v) :: rest else (k2, v2) :: insertA k v rest

/-- The placeholder string for the k-th item of an unexpanded nested sequence. -/
def seqItemLabel (k : Nat) : String :=
  "Sequence Item " ++ toString k

/-- Rust `DicomProcessor::extract_element_value`: in Raw format both value and raw string are
the debug dump of the element value; in every other format the value is the native
to-string conversion when it succeeds, otherwise the kind dispatch (primitive values via
`convert_primitive_value`, sequences as placeholder arrays, anything else as a debug
dump), and the raw string is the to-string outcome. -/
def extract_element_value (cfg : Config) (e : Element) : Json × Option String :=
  match cfg.format with
  | .raw =>
      let raw := dumpValue e.val
      (Json.str raw, some raw)
  | _ =>
      let value :=
        match e.toStr with
        | some s => Json.str s
        | none =>
            match e.val with
            | .primitive p => convert_primitive_value p
            | .sequence len =>
                Json.arr ((List.range (len.getD 0)).map
                  (fun i => Json.str (seqItemLabel (i + 1))))
            | v => Json.str (dumpValue v)
      (value, e.toStr)

/-- Rust `DicomProcessor::create_tag_info`: canonical tag key, VR, dictionary name only for
the Comprehensive and Medical formats, privacy flag from the tag group parity, and the
normalized value pair. -/
def create_tag_info (cfg : Config) (e : Element) : TagInfo :=
  let name :=
    match cfg.format with
    | .basic => none
    | .raw => none
    | .comprehensive => cfg.dict e.tag
    | .medical => cfg.dict e.tag
  let vrec := extract_element_value cfg e
  { tag := formatTag e.tag.group e.tag.elem
  , vr := e.vr
  , name := name
  , value := vrec.1
  , raw_value := vrec.2
  , is_private := e.tag.group % 2 == 1 }

/-- The private-tag skip condition of the extraction loop: the element is skipped when
private tags are not requested and the tag group number is odd. -/
def skipElem (cfg : Config) (e : Element) : Bool :=
  (!cfg.include_private) && (e.tag.group % 2 == 1)

/-- One non-skipped iteration of the extraction loop: insert the tag record under its
canonical key and capture the SOP class UID when this element carries it and its
to-string conversion succeeds. -/
def stepElem (cfg : Config) (acc : List (String × TagInfo) × Option String)
    (e : Element) : List (String × TagInfo) × Option String :=
  let tags := insertA (formatTag e.tag.group e.tag.elem) (create_tag_info cfg e) acc.1
  let sop :=
    if e.tag = sopClassUidTag then
      match e.toStr with
      | some s => some s
      | none => acc.2
    else acc.2
  (tags, sop)

/-- The extraction loop over the dataset elements in decoder order, building the tag
map and the captured SOP class UID. -/
def processElems (cfg : Config) (acc : List (String × TagInfo) × Option String) :
    List Element → List (String × TagInfo) × Option String
  | [] => acc
  | e :: rest =>
      if skipElem cfg e then processElems cfg acc rest
      else processElems cfg (stepElem cfg acc e) rest

/-- Rust `DicomProcessor::process_file` on an already-decoded dataset: builds the tag map,
captures transfer syntax and SOP class UID, computes `has_pixel_data` as
`element_opt(PIXEL_DATA).is_ok()`, and resolves the SOP instance UID (default
"unknown") and instance number (no default) from the optional lookups. -/
def process_file (cfg : Config) (ds : Dataset) (path : String) : DicomInstance :=
  let acc := processElems cfg ([], none) ds.elements
  { sop_instance_uid :=
      (((flattenOpt (element_opt ds sopInstanceUidTag)).bind Element.toStr).getD
        ("unknown"))
  , instance_number := (flattenOpt (element_opt ds instanceNumberTag)).bind Element.toStr
  , file_path := path
  , metadata :=
      { tags := acc.1
      , transfer_syntax := some ds.transferSyntaxStr
      , sop_class_uid := acc.2
      , file_meta_information := [] }
  , has_pixel_data := isOkE (element_opt ds pixelDataTag) }

/-- Rust `get_tag_value`: look the tag up in the tag map under its canonical key and return
the record's raw string value (not the normalized value). -/
def get_tag_value (tags : List (String × TagInfo)) (t : TagId) : Option String :=
  (alookup (formatTag t.group t.elem) tags).bind (fun ti => ti.raw_value)

/-- Patient demographic fields (`PatientInfo` in the source). -/
structure PatientInfo where
  patient_id : Option String
  patient_name : Option String
  patient_birth_date : Option String
  patient_sex : Option String
  patient_age : Option String

/-- Rust `extract_patient_info`: the five patient fields by well-known tag lookup. -/
def extract_patient_info (tags : List (String × TagInfo)) : PatientInfo :=
  { patient_id := get_tag_value tags patientIdTag
  , patient_name := get_tag_value tags patientNameTag
  , patient_birth_date := get_tag_value tags patientBirthDateTag
  , patient_sex := get_tag_value tags patientSexTag
  , patient_age := get_tag_value tags patientAgeTag }

/-- Rollup extraction summary (`ExtractionSummary` in the source). -/
structure ExtractionSummary where
  files_with_pixel_data : Nat
  unique_modalities : List String
  date_range : Option (String × String)

/-- Run-level metadata (`ProcessingInfo` in the source). The generated identifier and
timestamp are injected so the embedding stays deterministic. -/
structure ProcessingInfo where
  processing_id : String
  timestamp : String
  version : String
  total_files : Nat
  successful_files : Nat
  failed_files : Nat
  extraction_summary : ExtractionSummary

/-- The `ProcessingInfo` value both the comprehensive renderer and the study creation
branch build over the successful result list: every total is the length of that list
and the failed count is the literal zero. -/
def mkProcessingInfo (pid ts : String) (results : List DicomInstance) : ProcessingInfo :=
  { processing_id := pid
  , timestamp := ts
  , version := "1.0.0"
  , total_files := results.length
  , successful_files := results.length
  , failed_files := 0
  , extraction_summary :=
      { files_with_pixel_data := (results.filter (fun r => r.has_pixel_data)).length
      , unique_modalities :=
          (results.filterMap (fun r => get_tag_value r.metadata.tags modalityTag)).dedup
      , date_range := none } }

/-- One series record (`DicomSeries` in the source). -/
structure DicomSeries where
  series_instance_uid : String
  series_number : Option String
  series_description : Option String
  modality : Option String
  instances : List DicomInstance

/-- One study record (`DicomStudy` in the source); the series map is an association
list with unique keys. -/
structure DicomStudy where
  study_instance_uid : String
  study_date : Option String
  study_time : Option String
  study_description : Option String
  patient_info : PatientInfo
  series : List (String × DicomSeries)
  processing_info : ProcessingInfo

/-- The study grouping key of an instance: the raw StudyInstanceUID value, with the
sentinel bucket as default. -/
def studyKeyOf (i : DicomInstance) : String :=
  (get_tag_value i.metadata.tags studyInstanceUidTag).getD ("unknown_study")

/-- The series grouping key of an instance: the raw SeriesInstanceUID value, with the
sentinel bucket as default. -/
def seriesKeyOf (i : DicomInstance) : String :=
  (get_tag_value i.metadata.tags seriesInstanceUidTag).getD ("unknown_series")

/-- The series record created on the first instance observed for a series key: its
descriptive fields are read from that instance's tag map; the instance list starts
empty (the caller appends). -/
def mkSeriesFor (uid : String) (i : DicomInstance) : DicomSeries :=
  { series_instance_uid := uid
  , series_number := get_tag_value i.metadata.tags seriesNumberTag
  , series_description := get_tag_value i.metadata.tags seriesDescriptionTag
  , modality := get_tag_value i.metadata.tags modalityTag
  , instances := [] }

/-- Append one instance to a series record. -/
def addInstance (s : DicomSeries) (i : DicomInstance) : DicomSeries :=
  { s with instances := s.instances ++ [i] }

/-- The `series.entry(key).or_insert_with(..)` followed by the instance push: on a key
miss a fresh series is created from this instance and receives it; on a hit the stored
series only gains the instance at the end of its list. -/
def updateSeriesMap (i : DicomInstance) (k : String) :
    List (String × DicomSeries) → List (String × DicomSeries)
  | [] => [(k, addInstance (mkSeriesFor k i) i)]
  | (k2, s) :: rest =>
      if k2 = k then (k2, addInstance s i) :: rest
      else (k2, s) :: updateSeriesMap i k rest

/-- The study record created on the first instance observed for a study key: study
fields and patient info are read from that instance's tag map, the series map starts
empty, and the processing info is computed over the whole successful result list. -/
def mkStudyFor (pid ts : String) (all : List DicomInstance) (uid : String)
    (i : DicomInstance) : DicomStudy :=
  { study_instance_uid := uid
  , study_date := get_tag_value i.metadata.tags studyDateTag
  , study_time := get_tag_value i.metadata.tags studyTimeTag
  , study_description := get_tag_value i.metadata.tags studyDescriptionTag
  , patient_info := extract_patient_info i.metadata.tags
  , series := []
  , processing_info := mkProcessingInfo pid ts all }

/-- The `studies.entry(key).or_insert_with(..)` step for one instance: on a key miss a
fresh study is created from this instance; on a hit only the stored study's series map
is touched, via the series update above. -/
def updateStudyMap (pid ts : String) (all : List DicomInstance) (i : DicomInstance)
    (k : String) : List (String × DicomStudy) → List (String × DicomStudy)
  | [] =>
      let st := mkStudyFor pid ts all k i
      [(k, { st with series := updateSeriesMap i (seriesKeyOf i) st.series })]
  | (k2, st) :: rest =>
      if k2 = k then
        (k2, { st with series := updateSeriesMap i (seriesKeyOf i) st.series }) :: rest
      else (k2, st) :: updateStudyMap pid ts all i k rest

/-- Rust `organize_by_hierarchy` (grouping part): fold the instance list into the study map,
resolving each instance's study and series keys. -/
def organize_by_hierarchy (pid ts : String) (results : List DicomInstance) :
    List (String × DicomStudy) :=
  results.foldl (fun m i => updateStudyMap pid ts results i (studyKeyOf i) m) []

/-- One instance entry of the Basic flat output. -/
structure BasicInstanceOutput where
  file_path : String
  sop_instance_uid : String
  tags : List (String × Json)

/-- The Basic projection of one instance's tag map: drop private records, keep the
first ten of the remaining entries, and expose only the normalized value. -/
def create_basic_tags (tags : List (String × TagInfo)) : List (String × Json) :=
  ((tags.filter (fun kv => !kv.2.is_private)).take 10).map
    (fun kv => (kv.1, kv.2.value))

/-- The Basic projection of one instance. -/
def basicInstanceOf (i : DicomInstance) : BasicInstanceOutput :=
  { file_path := i.file_path
  , sop_instance_uid := i.sop_instance_uid
  , tags := create_basic_tags i.metadata.tags }

/-- The Basic flat output document. -/
structure BasicOutput where
  format : String
  total_files : Nat
  instances : List BasicInstanceOutput

/-- Rust `create_basic_output`. -/
def create_basic_output (results : List DicomInstance) : BasicOutput :=
  { format := "basic"
  , total_files := results.length
  , instances := results.map basicInstanceOf }

/-- The Comprehensive flat output document. -/
structure ComprehensiveOutput where
  format : String
  processing_info : ProcessingInfo
  instances : List DicomInstance

/-- Rust `create_comprehensive_output` (identifier and timestamp injected). -/
def create_comprehensive_output (pid ts : String) (results : List DicomInstance) :
    ComprehensiveOutput :=
  { format := "comprehensive"
  , processing_info := mkProcessingInfo pid ts results
  , instances := results }

/-- Rust `process_files_sequential` over already-discovered candidate paths, with the
per-file extraction outcome abstracted as a partial success function: failing files are
recorded only and excluded from the result list. -/
def process_files_sequential (files : List String)
    (extract : String → Option DicomInstance) : List DicomInstance :=
  files.filterMap extract

/-- The top-level run outcome over the discovered candidate list (`main` after
discovery): an empty candidate list aborts with the fatal descriptive message before
any extraction; otherwise the batch runs and succeeds regardless of how many
individual files failed. -/
def runMain (files : List String) (extract : String → Option DicomInstance) :
    Except String (List DicomInstance) :=
  if files.isEmpty then
    Except.error ("No DICOM files found in the specified input")
  else
    Except.ok (process_files_sequential files extract)

lemma hexDigitU_isHexU : ∀ n, n < 16 → isHexU (hexDigitU n) = true := by decide

lemma hexDigitU_inj : ∀ a, a < 16 → ∀ b, b < 16 → hexDigitU a = hexDigitU b → a = b := by
  decide

lemma formatTag_canonical (g e : Nat) : isCanonicalKey (formatTag g e) = true := by
  have h16 : (0:Nat) < 16 := by decide
  have h1 := hexDigitU_isHexU (g / 4096 % 16) (Nat.mod_lt _ h16)
  have h2 := hexDigitU_isHexU (g / 256 % 16) (Nat.mod_lt _ h16)
  have h3 := hexDigitU_isHexU (g / 16 % 16) (Nat.mod_lt _ h16)
  have h4 := hexDigitU_isHexU (g % 16) (Nat.mod_lt _ h16)
  have h5 := hexDigitU_isHexU (e / 4096 % 16) (Nat.mod_lt _ h16)
  have h6 := hexDigitU_isHexU (e / 256 % 16) (Nat.mod_lt _ h16)
  have h7 := hexDigitU_isHexU (e / 16 % 16) (Nat.mod_lt _ h16)
  have h8 := hexDigitU_isHexU (e % 16) (Nat.mod_lt _ h16)
  show isCanonicalKeyL (('(' :: hex4 g) ++ (',' :: hex4 e) ++ [')']) = true
  simp only [hex4, List.cons_append, List.nil_append]
  simp [isCanonicalKeyL, h1, h2, h3, h4, h5, h6, h7, h8]

lemma formatTag_inj {g e g2 e2 : Nat} (hg : g < 65536) (he : e < 65536)
    (hg2 : g2 < 65536) (he2 : e2 < 65536)
    (h : formatTag g e = formatTag g2 e2) : g = g2 ∧ e = e2 := by
  have h16 : (0:Nat) < 16 := by decide
  have hl : (('(' :: hex4 g) ++ (',' :: hex4 e) ++ [')'])
      = (('(' :: hex4 g2) ++ (',' :: hex4 e2) ++ [')']) := congrArg String.data h
  simp only [hex4, List.cons_append, List.nil_append, List.cons.injEq, and_true,
    true_and] at hl
  obtain ⟨a1, a2, a3, a4, a5, a6, a7, a8⟩ := hl
  have b1 := hexDigitU_inj _ (Nat.mod_lt _ h16) _ (Nat.mod_lt _ h16) a1
  have b2 := hexDigitU_inj _ (Nat.mod_lt _ h16) _ (Nat.mod_lt _ h16) a2
  have b3 := hexDigitU_inj _ (Nat.mod_lt _ h16) _ (Nat.mod_lt _ h16) a3
  have b4 := hexDigitU_inj _ (Nat.mod_lt _ h16) _ (Nat.mod_lt _ h16) a4
  have b5 := hexDigitU_inj _ (Nat.mod_lt _ h16) _ (Nat.mod_lt _ h16) a5
  have b6 := hexDigitU_inj _ (Nat.mod_lt _ h16) _ (Nat.mod_lt _ h16) a6
  have b7 := hexDigitU_inj _ (Nat.mod_lt _ h16) _ (Nat.mod_lt _ h16) a7
  have b8 := hexDigitU_inj _ (Nat.mod_lt _ h16) _ (Nat.mod_lt _ h16) a8
  constructor <;> omega

lemma alookup_insertA {β : Type} (k k2 : String) (v : β) (m : List (String × β)) :
    alookup k (insertA k2 v m) = if k2 = k then some v else alookup k m := by
  induction m with
  | nil =>
      by_cases hk : k2 = k <;> simp [insertA, alookup, hk]
  | cons kv rest ih =>
      obtain ⟨k3, v3⟩ := kv
      by_cases h3 : k3 = k2
      · subst h3
        by_cases hk : k3 = k <;> simp [insertA, alookup, hk]
      · by_cases hk : k3 = k
        · subst hk
          have hne : ¬ k2 = k3 := fun hh => h3 hh.symm
          simp [insertA, h3, alookup, hne]
        · simp [insertA, h3, alookup, hk, ih]

lemma processElems_lookup_origin (cfg : Config) :
    ∀ (elems : List Element) (acc : List (String × TagInfo) × Option String)
      (k : String) (ti : TagInfo),
      alookup k (processElems cfg acc elems).1 = some ti →
      alookup k acc.1 = some ti ∨
        ∃ e ∈ elems, skipElem cfg e = false ∧ k = formatTag e.tag.group e.tag.elem ∧
          ti = create_tag_info cfg e := by
  intro elems
  induction elems with
  | nil => intro acc k ti h; exact Or.inl h
  | cons e rest ih =>
      intro acc k ti h
      simp only [processElems] at h
      by_cases hs : skipElem cfg e
      · rw [if_pos hs] at h
        rcases ih _ _ _ h with h1 | ⟨e2, hmem, hsk, hk, hti⟩
        · exact Or.inl h1
        · exact Or.inr ⟨e2, List.mem_cons_of_mem _ hmem, hsk, hk, hti⟩
      · rw [if_neg hs] at h
        rcases ih _ _ _ h with h1 | ⟨e2, hmem, hsk, hk, hti⟩
        · have h2 : alookup k (insertA (formatTag e.tag.group e.tag.elem)
              (create_tag_info cfg e) acc.1) = some ti := h1
          rw [alookup_insertA] at h2
          by_cases hk : formatTag e.tag.group e.tag.elem = k
          · rw [if_pos hk] at h2
            exact Or.inr ⟨e, List.mem_cons_self _ _, Bool.eq_false_iff.mpr hs,
              hk.symm, (Option.some.inj h2).symm⟩
          · rw [if_neg hk] at h2
            exact Or.inl h2
        · exact Or.inr ⟨e2, List.mem_cons_of_mem _ hmem, hsk, hk, hti⟩

lemma processElems_lookup_mono (cfg : Config) :
    ∀ (elems : List Element) (acc : List (String × TagInfo) × Option String)
      (k : String),
      (alookup k acc.1).isSome = true →
      (alookup k (processElems cfg acc elems).1).isSome = true := by
  intro elems
  induction elems with
  | nil => intro acc k h; exact h
  | cons e rest ih =>
      intro acc k h
      simp only [processElems]
      by_cases hs : skipElem cfg e
      · rw [if_pos hs]; exact ih _ _ h
      · rw [if_neg hs]
        apply ih
        show (alookup k (insertA (formatTag e.tag.group e.tag.elem)
          (create_tag_info cfg e) acc.1)).isSome = true
        rw [alookup_insertA]
        by_cases hk : formatTag e.tag.group e.tag.elem = k
        · rw [if_pos hk]; rfl
        · rw [if_neg hk]; exact h

lemma processElems_lookup_mem (cfg : Config) :
    ∀ (elems : List Element) (acc : List (String × TagInfo) × Option String)
      (e : Element), e ∈ elems → skipElem cfg e = false →
      (alookup (formatTag e.tag.group e.tag.elem)
        (processElems cfg acc elems).1).isSome = true := by
  intro elems
  induction elems with
  | nil => intro acc e hmem; cases hmem
  | cons e2 rest ih =>
      intro acc e hmem hsk
      simp only [processElems]
      rcases List.mem_cons.mp hmem with rfl | hmem2
      · rw [if_neg (by rw [hsk]; exact Bool.false_ne_true)]
        apply processElems_lookup_mono
        show (alookup (formatTag e.tag.group e.tag.elem)
          (insertA (formatTag e.tag.group e.tag.elem)
            (create_tag_info cfg e) acc.1)).isSome = true
        rw [alookup_insertA, if_pos rfl]; rfl
      · by_cases hs2 : skipElem cfg e2
        · rw [if_pos hs2]; exact ih _ _ hmem2 hsk
        · rw [if_neg hs2]; exact ih _ _ hmem2 hsk

/-- C1: the code computes `has_pixel_data` as `element_opt(PIXEL_DATA).is_ok()`. The
optional element lookup succeeds with `none` when the tag is absent (absence is not an
error), so the flag evaluates to `true` for every dataset — including a dataset with no
pixel-data element, where the claim requires `false`. -/
theorem c1_has_pixel_data_always_true (cfg : Config) (ds : Dataset) (path : String) :
    (process_file cfg ds path).has_pixel_data = true := rfl

/-- C2: a dataset element whose tag group number is odd is never inserted in the tag
map when `include_private` is false, and is present with `is_private = true` when
`include_private` is true (group and element numbers are `u16` values). -/
theorem c2_private_tag_filtering (cfg : Config) (ds : Dataset) (path : String)
    (e : Element) (hmem : e ∈ ds.elements)
    (hb : ∀ e2 ∈ ds.elements, e2.tag.group < 65536 ∧ e2.tag.elem < 65536)
    (hodd : e.tag.group % 2 = 1) :
    (cfg.include_private = false →
      alookup (formatTag e.tag.group e.tag.elem)
        (process_file cfg ds path).metadata.tags = none) ∧
    (cfg.include_private = true →
      ∃ ti, alookup (formatTag e.tag.group e.tag.elem)
          (process_file cfg ds path).metadata.tags = some ti ∧
        ti.is_private = true) := by
  constructor
  · intro hip
    cases h : alookup (formatTag e.tag.group e.tag.elem)
        (process_file cfg ds path).metadata.tags with
    | none => rfl
    | some ti =>
        exfalso
        have h2 : alookup (formatTag e.tag.group e.tag.elem)
            (processElems cfg ([], none) ds.elements).1 = some ti := h
        rcases processElems_lookup_origin cfg ds.elements ([], none) _ _ h2 with
          h3 | ⟨e2, hmem2, hsk, hkey, -⟩
        · simp [alookup] at h3
        · have hgb := (hb e hmem).1
          have heb := (hb e hmem).2
          have hgb2 := (hb e2 hmem2).1
          have heb2 := (hb e2 hmem2).2
          have hinj := formatTag_inj hgb heb hgb2 heb2 hkey
          have hsk2 : (e2.tag.group % 2 == 1) = false := by
            simpa [skipElem, hip] using hsk
          have : e2.tag.group % 2 = 1 := hinj.1 ▸ hodd
          simp [this] at hsk2
  · intro hip
    have hskip : skipElem cfg e = false := by simp [skipElem, hip]
    have hsome := processElems_lookup_mem cfg ds.elements ([], none) e hmem hskip
    rcases Option.isSome_iff_exists.mp hsome with ⟨ti, hti⟩
    refine ⟨ti, hti, ?_⟩
    rcases processElems_lookup_origin cfg ds.elements ([], none) _ _ hti with
      h3 | ⟨e2, hmem2, -, hkey, hval⟩
    · simp [alookup] at h3
    · have hinj := formatTag_inj (hb e hmem).1 (hb e hmem).2
        (hb e2 hmem2).1 (hb e2 hmem2).2 hkey
      have hg2 : e2.tag.group % 2 = 1 := hinj.1 ▸ hodd
      rw [hval]
      show (e2.tag.group % 2 == 1) = true
      rw [hg2]; rfl

/-- A sample decoded element carrying an odd (private) tag group. -/
def privElem : Element :=
  { tag := ⟨9, 16⟩
  , vr := "LO"
  , val := DVal.primitive (PrimitiveValue.str ("ACME"))
  , toStr := some ("ACME") }

/-- A sample dataset holding only the private element. -/
def privDataset : Dataset :=
  { elements := [privElem], transferSyntaxStr := "1.2.840.10008.1.2.1" }

/-- A configuration with private tags excluded. -/
def cfgNoPriv : Config :=
  { format := OutputFormat.comprehensive, include_private := false
  , dict := fun _ => none }

/-- A configuration with private tags included. -/
def cfgPriv : Config :=
  { format := OutputFormat.comprehensive, include_private := true
  , dict := fun _ => none }

theorem c2_private_tag_filtering_witness :
    alookup (formatTag 9 16)
        (process_file cfgNoPriv privDataset ("f.dcm")).metadata.tags = none ∧
      ∃ ti, alookup (formatTag 9 16)
          (process_file cfgPriv privDataset ("f.dcm")).metadata.tags = some ti ∧
        ti.is_private = true := by
  have hbnd : ∀ e2 ∈ privDataset.elements,
      e2.tag.group < 65536 ∧ e2.tag.elem < 65536 := by
    intro e2 h2
    rcases List.mem_singleton.mp h2 with rfl
    exact ⟨by decide, by decide⟩
  constructor
  · exact (c2_private_tag_filtering cfgNoPriv privDataset ("f.dcm") privElem
      (List.mem_cons_self _ _) hbnd (by decide)).1 rfl
  · exact (c2_private_tag_filtering cfgPriv privDataset ("f.dcm") privElem
      (List.mem_cons_self _ _) hbnd (by decide)).2 rfl

/-- C6: every key of an extracted instance's tag map is the canonical
open-parenthesis, four uppercase hex digits, comma, four uppercase hex digits,
close-parenthesis pattern, and the well-known tag lookup uses the same canonical
formatting for its key. -/
theorem c6_canonical_tag_keys (cfg : Config) (ds : Dataset) (path : String)
    (k : String) (ti : TagInfo)
    (hk : alookup k (process_file cfg ds path).metadata.tags = some ti) :
    isCanonicalKey k = true ∧
      ∀ (tags : List (String × TagInfo)) (t : TagId),
        get_tag_value tags t =
          (alookup (formatTag t.group t.elem) tags).bind (fun r => r.raw_value) := by
  constructor
  · have h2 : alookup k (processElems cfg ([], none) ds.elements).1 = some ti := hk
    rcases processElems_lookup_origin cfg ds.elements ([], none) _ _ h2 with
      h3 | ⟨e, -, -, hkey, -⟩
    · simp [alookup] at h3
    · rw [hkey]; exact formatTag_canonical _ _
  · intro tags t; rfl

theorem c6_canonical_tag_keys_witness :
    isCanonicalKey (formatTag 9 16) = true :=
  (c6_canonical_tag_keys cfgPriv privDataset ("f.dcm") (formatTag 9 16)
    (create_tag_info cfgPriv privElem) rfl).1

/-- The length-collapse behavior a vector arm of the normalizer exhibits: a length-1
vector yields the rendered element as a scalar, a longer vector yields the array of
rendered elements in the original order. -/
def collapsed {α : Type} (render : α → Json) (vals : List α) (j : Json) : Prop :=
  (vals.length = 1 → ∃ v, vals = [v] ∧ j = render v) ∧
  (1 < vals.length → j = Json.arr (vals.map render))

lemma collapse1_collapsed {α : Type} (render : α → Json) (vals : List α) :
    collapsed render vals (collapse1 render vals) := by
  rcases vals with - | ⟨a, - | ⟨b, l⟩⟩
  · exact ⟨fun h => by simp only [List.length_nil] at h; omega,
      fun h => by simp only [List.length_nil] at h; omega⟩
  · exact ⟨fun _ => ⟨a, rfl, rfl⟩,
      fun h => by simp only [List.length_cons, List.length_nil] at h; omega⟩
  · exact ⟨fun h => by
        simp only [List.length_cons] at h; omega,
      fun _ => rfl⟩

/-- C3 (amended): the length-collapse rule (length 1 yields a scalar, length N > 1
yields an ordered N-element array) holds for the numeric vector widths the dispatch
handles — u8, u16, u32, i16, i32, f32, f64 — and for string, date, time and datetime
vectors; 64-bit integer vectors (i64, u64) instead fall through to the catch-all and
render as a single debug-dump string. -/
theorem c3_vector_collapse_amended :
    (∀ vals : List Nat, collapsed (fun v => Json.num (JNum.nat v)) vals
        (convert_primitive_value (PrimitiveValue.u8 vals))) ∧
    (∀ vals : List Nat, collapsed (fun v => Json.num (JNum.nat v)) vals
        (convert_primitive_value (PrimitiveValue.u16 vals))) ∧
    (∀ vals : List Nat, collapsed (fun v => Json.num (JNum.nat v)) vals
        (convert_primitive_value (PrimitiveValue.u32 vals))) ∧
    (∀ vals : List Int, collapsed (fun v => Json.num (JNum.int v)) vals
        (convert_primitive_value (PrimitiveValue.i16 vals))) ∧
    (∀ vals : List Int, collapsed (fun v => Json.num (JNum.int v)) vals
        (convert_primitive_value (PrimitiveValue.i32 vals))) ∧
    (∀ vals : List Float, collapsed (fun v => Json.num (JNum.float v)) vals
        (convert_primitive_value (PrimitiveValue.f32 vals))) ∧
    (∀ vals : List Float, collapsed (fun v => Json.num (JNum.float v)) vals
        (convert_primitive_value (PrimitiveValue.f64 vals))) ∧
    (∀ vals : List String, collapsed Json.str vals
        (convert_primitive_value (PrimitiveValue.strs vals))) ∧
    (∀ vals : List String, collapsed Json.str vals
        (convert_primitive_value (PrimitiveValue.date vals))) ∧
    (∀ vals : List String, collapsed Json.str vals
        (convert_primitive_value (PrimitiveValue.time vals))) ∧
    (∀ vals : List String, collapsed Json.str vals
        (convert_primitive_value (PrimitiveValue.datetime vals))) ∧
    (∀ vals : List Int, convert_primitive_value (PrimitiveValue.i64 vals)
        = Json.str (debugDump (PrimitiveValue.i64 vals))) ∧
    (∀ vals : List Nat, convert_primitive_value (PrimitiveValue.u64 vals)
        = Json.str (debugDump (PrimitiveValue.u64 vals))) :=
  ⟨fun vals => collapse1_collapsed _ vals, fun vals => collapse1_collapsed _ vals,
   fun vals => collapse1_collapsed _ vals, fun vals => collapse1_collapsed _ vals,
   fun vals => collapse1_collapsed _ vals, fun vals => collapse1_collapsed _ vals,
   fun vals => collapse1_collapsed _ vals, fun vals => collapse1_collapsed _ vals,
   fun vals => collapse1_collapsed _ vals, fun vals => collapse1_collapsed _ vals,
   fun vals => collapse1_collapsed _ vals, fun _ => rfl, fun _ => rfl⟩

/-- C3 counterexample: a two-element 64-bit signed integer vector does not render as a
two-element JSON number array — it hits the catch-all and renders as a single
debug-dump string. -/
theorem c3_counterexample_i64_vector :
    convert_primitive_value (PrimitiveValue.i64 [1, 2])
        ≠ Json.arr [Json.num (JNum.int 1), Json.num (JNum.int 2)] ∧
    convert_primitive_value (PrimitiveValue.i64 [1, 2])
        = Json.str (debugDump (PrimitiveValue.i64 [1, 2])) := by
  constructor
  · intro h
    simp only [convert_primitive_value] at h
    exact Json.noConfusion h
  · rfl

theorem c3_vector_collapse_amended_witness :
    convert_primitive_value (PrimitiveValue.u16 [3, 7])
      = Json.arr [Json.num (JNum.nat 3), Json.num (JNum.nat 7)] :=
  (c3_vector_collapse_amended.2.1 [3, 7]).2
    (by simp only [List.length_cons, List.length_nil]; omega)

/-- C4 (amended): a tag-reference vector always renders as a JSON array of the
canonical tag strings in order — including a length-1 vector, which is not collapsed to
a scalar — and each rendered entry is the canonical uppercase-hex pattern. -/
theorem c4_tags_always_array (vals : List TagId) :
    convert_primitive_value (PrimitiveValue.tags vals)
        = Json.arr (vals.map (fun t => Json.str (formatTag t.group t.elem))) ∧
    ∀ t ∈ vals, isCanonicalKey (formatTag t.group t.elem) = true :=
  ⟨rfl, fun _ _ => formatTag_canonical _ _⟩

/-- C4 counterexample: the length-1 tag vector holding (0008,1150) renders as the
one-element array of its canonical string, not as the scalar string the claim's
collapse rule requires. -/
theorem c4_counterexample_singleton_tags :
    formatTag 8 4432 = "(0008,1150)" ∧
    convert_primitive_value (PrimitiveValue.tags [⟨8, 4432⟩])
        ≠ Json.str ("(0008,1150)") ∧
    convert_primitive_value (PrimitiveValue.tags [⟨8, 4432⟩])
        = Json.arr [Json.str ("(0008,1150)")] := by
  have hs : formatTag 8 4432 = "(0008,1150)" := by decide
  refine ⟨hs, ?_, ?_⟩
  · intro h
    simp only [convert_primitive_value] at h
    exact Json.noConfusion h
  · show Json.arr [Json.str (formatTag 8 4432)] = Json.arr [Json.str ("(0008,1150)")]
    rw [hs]

theorem c4_tags_always_array_witness :
    convert_primitive_value (PrimitiveValue.tags [⟨16, 32⟩, ⟨16, 48⟩])
        = Json.arr [Json.str (formatTag 16 32), Json.str (formatTag 16 48)] ∧
    isCanonicalKey (formatTag 16 32) = true :=
  ⟨(c4_tags_always_array [⟨16, 32⟩, ⟨16, 48⟩]).1,
   (c4_tags_always_array [⟨16, 32⟩, ⟨16, 48⟩]).2 ⟨16, 32⟩ (List.mem_cons_self _ _)⟩

/-- C5: every instance entry of the Basic flat output carries at most ten tag entries,
and each carried entry stems from a non-private tag record of the source instance (the
private filter runs before the cap, and runs unconditionally — the renderer never sees
the `include_private` flag). -/
theorem c5_basic_output_cap_and_privacy (results : List DicomInstance)
    (b : BasicInstanceOutput) (hb : b ∈ (create_basic_output results).instances) :
    b.tags.length ≤ 10 ∧
    ∀ p ∈ b.tags, ∃ i ∈ results, ∃ ti : TagInfo,
        (p.1, ti) ∈ i.metadata.tags ∧ ti.is_private = false ∧ p.2 = ti.value := by
  rcases List.mem_map.mp hb with ⟨i, hi, rfl⟩
  constructor
  · show (create_basic_tags i.metadata.tags).length ≤ 10
    have h1 : (create_basic_tags i.metadata.tags).length
        = (((i.metadata.tags.filter (fun kv => !kv.2.is_private))).take 10).length := by
      simp [create_basic_tags]
    rw [h1]
    exact List.length_take_le 10 _
  · intro p hp
    rcases List.mem_map.mp hp with ⟨kv, hkv, rfl⟩
    have h1 : kv ∈ i.metadata.tags.filter (fun kv => !kv.2.is_private) :=
      List.take_subset _ _ hkv
    have h2 := List.mem_filter.mp h1
    refine ⟨i, hi, kv.2, h2.1, ?_, rfl⟩
    simpa using h2.2

/-- A sample non-private tag record (Modality, raw value CT). -/
def sampleTagInfo : TagInfo :=
  { tag := formatTag 8 96
  , vr := "CS"
  , name := none
  , value := Json.str ("CT")
  , raw_value := some ("CT")
  , is_private := false }

/-- A sample extracted instance carrying only the Modality record. -/
def sampleInstance : DicomInstance :=
  { sop_instance_uid := "1.2.3"
  , instance_number := some ("1")
  , file_path := "f.dcm"
  , metadata :=
      { tags := [(formatTag 8 96, sampleTagInfo)]
      , transfer_syntax := some ("1.2.840.10008.1.2.1")
      , sop_class_uid := none
      , file_meta_information := [] }
  , has_pixel_data := true }

theorem c5_basic_output_cap_and_privacy_witness :
    (basicInstanceOf sampleInstance).tags.length ≤ 10 :=
  (c5_basic_output_cap_and_privacy [sampleInstance] (basicInstanceOf sampleInstance)
    (by simp [create_basic_output])).1

/-- C8: an empty discovered-candidate list aborts the run with the fatal descriptive
message (no extraction runs, nothing is written), while a non-empty list always yields
a successful outcome — whatever number of individual files the extraction function
fails on. -/
theorem c8_empty_discovery_fatal (files : List String)
    (extract : String → Option DicomInstance) :
    (files = [] → runMain files extract
        = Except.error ("No DICOM files found in the specified input")) ∧
    (files ≠ [] → runMain files extract
        = Except.ok (process_files_sequential files extract)) := by
  constructor
  · intro h; subst h; rfl
  · intro h
    cases files with
    | nil => exact absurd rfl h
    | cons a l => rfl

theorem c8_empty_discovery_fatal_witness :
    runMain [] (fun _ => none)
        = Except.error ("No DICOM files found in the specified input") ∧
    runMain ["a.dcm"] (fun _ => none) = Except.ok [] :=
  ⟨(c8_empty_discovery_fatal [] (fun _ => none)).1 rfl,
   (c8_empty_discovery_fatal ["a.dcm"] (fun _ => none)).2 (by simp)⟩

/-- C10: the well-known tag lookup reads a record's raw string value, never its
normalized value, and a study or series UID record whose raw value is absent makes the
instance collapse into the sentinel bucket exactly as a missing record does. -/
theorem c10_raw_value_grouping (i : DicomInstance) (sti sei : TagInfo) :
    (∀ (tags : List (String × TagInfo)) (t : TagId),
      get_tag_value tags t =
        (alookup (formatTag t.group t.elem) tags).bind (fun r => r.raw_value)) ∧
    (alookup (formatTag studyInstanceUidTag.group studyInstanceUidTag.elem)
        i.metadata.tags = some sti → sti.raw_value = none →
      studyKeyOf i = "unknown_study") ∧
    (alookup (formatTag studyInstanceUidTag.group studyInstanceUidTag.elem)
        i.metadata.tags = none → studyKeyOf i = "unknown_study") ∧
    (alookup (formatTag seriesInstanceUidTag.group seriesInstanceUidTag.elem)
        i.metadata.tags = some sei → sei.raw_value = none →
      seriesKeyOf i = "unknown_series") ∧
    (alookup (formatTag seriesInstanceUidTag.group seriesInstanceUidTag.elem)
        i.metadata.tags = none → seriesKeyOf i = "unknown_series") := by
  refine ⟨fun tags t => rfl, ?_, ?_, ?_, ?_⟩
  · intro h hr
    simp [studyKeyOf, get_tag_value, h, hr]
  · intro h
    simp [studyKeyOf, get_tag_value, h]
  · intro h hr
    simp [seriesKeyOf, get_tag_value, h, hr]
  · intro h
    simp [seriesKeyOf, get_tag_value, h]

/-- A study-UID record whose raw value is absent (the native to-string conversion
failed) while the normalized value is present. -/
def uidNoRawTagInfo : TagInfo :=
  { tag := formatTag 32 13
  , vr := "UI"
  , name := none
  , value := Json.str ("1.2.3")
  , raw_value := none
  , is_private := false }

/-- An instance whose study-UID tag is present in the tag map but has no raw value. -/
def uidNoRawInstance : DicomInstance :=
  { sop_instance_uid := "unknown"
  , instance_number := none
  , file_path := "g.dcm"
  , metadata :=
      { tags := [(formatTag 32 13, uidNoRawTagInfo)]
      , transfer_syntax := none
      , sop_class_uid := none
      , file_meta_information := [] }
  , has_pixel_data := true }

theorem c10_raw_value_grouping_witness :
    studyKeyOf uidNoRawInstance = "unknown_study" :=
  (c10_raw_value_grouping uidNoRawInstance uidNoRawTagInfo uidNoRawTagInfo).2.1
    (by rfl) rfl

lemma updateSeriesMap_existing (i : DicomInstance) (k sk : String)
    (ss : List (String × DicomSeries)) (s : DicomSeries)
    (hs : alookup sk ss = some s) :
    ∃ s2, alookup sk (updateSeriesMap i k ss) = some s2 ∧
      s2.series_instance_uid = s.series_instance_uid ∧
      s2.series_number = s.series_number ∧
      s2.series_description = s.series_description ∧
      s2.modality = s.modality ∧
      (s2.instances = s.instances ∨ s2.instances = s.instances ++ [i]) := by
  induction ss with
  | nil => simp [alookup] at hs
  | cons kv rest ih =>
      obtain ⟨k2, s3⟩ := kv
      simp only [alookup] at hs
      by_cases hsk : k2 = sk
      · subst hsk
        rw [if_pos rfl] at hs
        have h3 : s3 = s := Option.some.inj hs
        subst h3
        by_cases hk : k2 = k
        · subst hk
          refine ⟨addInstance s3 i, ?_, rfl, rfl, rfl, rfl, Or.inr rfl⟩
          simp [updateSeriesMap, alookup]
        · refine ⟨s3, ?_, rfl, rfl, rfl, rfl, Or.inl rfl⟩
          simp [updateSeriesMap, alookup, hk]
      · rw [if_neg hsk] at hs
        by_cases hk : k2 = k
        · subst hk
          refine ⟨s, ?_, rfl, rfl, rfl, rfl, Or.inl rfl⟩
          simp [updateSeriesMap, alookup, hsk, hs]
        · obtain ⟨s2, hl, e1, e2, e3, e4, e5⟩ := ih hs
          refine ⟨s2, ?_, e1, e2, e3, e4, e5⟩
          simp [updateSeriesMap, alookup, hsk, hk, hl]

lemma updateSeriesMap_new (i : DicomInstance) (k : String)
    (ss : List (String × DicomSeries)) (hs : alookup k ss = none) :
    alookup k (updateSeriesMap i k ss) = some (addInstance (mkSeriesFor k i) i) := by
  induction ss with
  | nil => simp [updateSeriesMap, alookup]
  | cons kv rest ih =>
      obtain ⟨k2, s3⟩ := kv
      simp only [alookup] at hs
      by_cases hk : k2 = k
      · rw [if_pos hk] at hs; cases hs
      · rw [if_neg hk] at hs
        simp [updateSeriesMap, hk, alookup, ih hs]

lemma updateStudyMap_new (pid ts : String) (all : List DicomInstance)
    (i : DicomInstance) (k : String) (m : List (String × DicomStudy))
    (hm : alookup k m = none) :
    alookup k (updateStudyMap pid ts all i k m)
      = some { mkStudyFor pid ts all k i with
          series := updateSeriesMap i (seriesKeyOf i) [] } := by
  induction m with
  | nil => simp [updateStudyMap, alookup, mkStudyFor]
  | cons kv rest ih =>
      obtain ⟨k2, st3⟩ := kv
      simp only [alookup] at hm
      by_cases hk : k2 = k
      · rw [if_pos hk] at hm; cases hm
      · rw [if_neg hk] at hm
        simp [updateStudyMap, hk, alookup, ih hm]

lemma updateStudyMap_existing (pid ts : String) (all : List DicomInstance)
    (i : DicomInstance) (k k2 : String) (m : List (String × DicomStudy))
    (st : DicomStudy) (hm : alookup k2 m = some st) :
    ∃ st2, alookup k2 (updateStudyMap pid ts all i k m) = some st2 ∧
      st2.study_instance_uid = st.study_instance_uid ∧
      st2.study_date = st.study_date ∧
      st2.study_time = st.study_time ∧
      st2.study_description = st.study_description ∧
      st2.patient_info = st.patient_info ∧
      st2.processing_info = st.processing_info ∧
      (k2 ≠ k → st2 = st) ∧
      (k2 = k → st2.series = updateSeriesMap i (seriesKeyOf i) st.series) ∧
      (k2 ≠ k → st2.series = st.series) := by
  induction m with
  | nil => simp [alookup] at hm
  | cons kv rest ih =>
      obtain ⟨k3, st3⟩ := kv
      simp only [alookup] at hm
      by_cases h32 : k3 = k2
      · subst h32
        rw [if_pos rfl] at hm
        have h33 : st3 = st := Option.some.inj hm
        subst h33
        by_cases h3k : k3 = k
        · subst h3k
          refine ⟨{ st3 with series := updateSeriesMap i (seriesKeyOf i) st3.series },
            ?_, rfl, rfl, rfl, rfl, rfl, rfl, ?_, fun _ => rfl, ?_⟩
          · simp [updateStudyMap, alookup]
          · intro hne; exact absurd rfl hne
          · intro hne; exact absurd rfl hne
        · refine ⟨st3, ?_, rfl, rfl, rfl, rfl, rfl, rfl, fun _ => rfl, ?_, fun _ => rfl⟩
          · simp [updateStudyMap, alookup, h3k]
          · intro hk2; exact absurd hk2 h3k
      · rw [if_neg h32] at hm
        by_cases h3k : k3 = k
        · subst h3k
          refine ⟨st, ?_, rfl, rfl, rfl, rfl, rfl, rfl, fun _ => rfl, ?_, fun _ => rfl⟩
          · simp [updateStudyMap, alookup, h32, hm]
          · intro hk2; exact absurd hk2.symm h32
        · obtain ⟨st2, hl, e1, e2, e3, e4, e5, e6, e7, e8, e9⟩ := ih hm
          refine ⟨st2, ?_, e1, e2, e3, e4, e5, e6, e7, e8, e9⟩
          simp [updateStudyMap, alookup, h32, h3k, hl]

/-- C7: during hierarchy aggregation, a study record is created on the first instance
observed for its key with its descriptive fields and patient info read from that
instance (and its single series likewise created from it), while an instance hitting an
existing study key leaves every stored study field intact, leaves every stored series'
descriptive fields intact and at most appends the instance to a series' instance list,
creating a fresh series from the instance only on a series-key miss. -/
theorem c7_first_seen_wins (pid ts : String) (all : List DicomInstance)
    (m : List (String × DicomStudy)) (i : DicomInstance) :
    (alookup (studyKeyOf i) m = none →
      alookup (studyKeyOf i) (updateStudyMap pid ts all i (studyKeyOf i) m) =
        some { study_instance_uid := studyKeyOf i
             , study_date := get_tag_value i.metadata.tags studyDateTag
             , study_time := get_tag_value i.metadata.tags studyTimeTag
             , study_description := get_tag_value i.metadata.tags studyDescriptionTag
             , patient_info := extract_patient_info i.metadata.tags
             , series := [(seriesKeyOf i,
                 { series_instance_uid := seriesKeyOf i
                 , series_number := get_tag_value i.metadata.tags seriesNumberTag
                 , series_description := get_tag_value i.metadata.tags seriesDescriptionTag
                 , modality := get_tag_value i.metadata.tags modalityTag
                 , instances := [i] })]
             , processing_info := mkProcessingInfo pid ts all }) ∧
    (∀ k st, alookup k m = some st → ∃ st2,
      alookup k (updateStudyMap pid ts all i (studyKeyOf i) m) = some st2 ∧
      st2.study_instance_uid = st.study_instance_uid ∧
      st2.study_date = st.study_date ∧
      st2.study_time = st.study_time ∧
      st2.study_description = st.study_description ∧
      st2.patient_info = st.patient_info ∧
      st2.processing_info = st.processing_info ∧
      (k ≠ studyKeyOf i → st2 = st) ∧
      (∀ sk s, alookup sk st.series = some s → ∃ s2,
        alookup sk st2.series = some s2 ∧
        s2.series_instance_uid = s.series_instance_uid ∧
        s2.series_number = s.series_number ∧
        s2.series_description = s.series_description ∧
        s2.modality = s.modality ∧
        (s2.instances = s.instances ∨ s2.instances = s.instances ++ [i])) ∧
      (k = studyKeyOf i → alookup (seriesKeyOf i) st.series = none →
        alookup (seriesKeyOf i) st2.series =
          some (addInstance (mkSeriesFor (seriesKeyOf i) i) i))) := by
  constructor
  · intro hm
    exact updateStudyMap_new pid ts all i (studyKeyOf i) m hm
  · intro k st hm
    obtain ⟨st2, hl, e1, e2, e3, e4, e5, e6, e7, e8, e9⟩ :=
      updateStudyMap_existing pid ts all i (studyKeyOf i) k m st hm
    refine ⟨st2, hl, e1, e2, e3, e4, e5, e6, e7, ?_, ?_⟩
    · intro sk s hs
      by_cases hk : k = studyKeyOf i
      · rw [e8 hk]
        exact updateSeriesMap_existing i (seriesKeyOf i) sk st.series s hs
      · rw [e9 hk]
        exact ⟨s, hs, rfl, rfl, rfl, rfl, Or.inl rfl⟩
    · intro hk hnone
      rw [e8 hk]
      exact updateSeriesMap_new i (seriesKeyOf i) st.series hnone

theorem c7_first_seen_wins_witness :
    alookup (studyKeyOf sampleInstance)
        (updateStudyMap ("pid") ("ts") [sampleInstance] sampleInstance
          (studyKeyOf sampleInstance) []) =
      some { study_instance_uid := studyKeyOf sampleInstance
           , study_date := get_tag_value sampleInstance.metadata.tags studyDateTag
           , study_time := get_tag_value sampleInstance.metadata.tags studyTimeTag
           , study_description :=
               get_tag_value sampleInstance.metadata.tags studyDescriptionTag
           , patient_info := extract_patient_info sampleInstance.metadata.tags
           , series := [(seriesKeyOf sampleInstance,
               { series_instance_uid := seriesKeyOf sampleInstance
               , series_number := get_tag_value sampleInstance.metadata.tags seriesNumberTag
               , series_description :=
                   get_tag_value sampleInstance.metadata.tags seriesDescriptionTag
               , modality := get_tag_value sampleInstance.metadata.tags modalityTag
               , instances := [sampleInstance] })]
           , processing_info := mkProcessingInfo ("pid") ("ts") [sampleInstance] } :=
  (c7_first_seen_wins ("pid") ("ts") [sampleInstance] [] sampleInstance).1 rfl

lemma updateStudyMap_lookup_cases (pid ts : String) (all : List DicomInstance)
    (i : DicomInstance) (k : String) :
    ∀ (m : List (String × DicomStudy)) (k2 : String) (st2 : DicomStudy),
      alookup k2 (updateStudyMap pid ts all i k m) = some st2 →
      (∃ st, alookup k2 m = some st ∧ st2.processing_info = st.processing_info) ∨
        st2.processing_info = mkProcessingInfo pid ts all := by
  intro m
  induction m with
  | nil =>
      intro k2 st2 h
      simp only [updateStudyMap, alookup] at h
      by_cases hk : k = k2
      · rw [if_pos hk] at h
        have h2 := Option.some.inj h
        right
        rw [← h2]
        rfl
      · rw [if_neg hk] at h
        cases h
  | cons kv rest ih =>
      intro k2 st2 h
      obtain ⟨k3, st3⟩ := kv
      simp only [updateStudyMap] at h
      by_cases h3k : k3 = k
      · rw [if_pos h3k] at h
        simp only [alookup] at h
        by_cases h32 : k3 = k2
        · rw [if_pos h32] at h
          have h2 := Option.some.inj h
          left
          refine ⟨st3, ?_, ?_⟩
          · simp [alookup, h32]
          · rw [← h2]
        · rw [if_neg h32] at h
          left
          exact ⟨st2, by simp [alookup, h32, h], rfl⟩
      · rw [if_neg h3k] at h
        simp only [alookup] at h
        by_cases h32 : k3 = k2
        · rw [if_pos h32] at h
          have h2 := Option.some.inj h
          left
          exact ⟨st3, by simp [alookup, h32], by rw [← h2]⟩
        · rw [if_neg h32] at h
          rcases ih k2 st2 h with ⟨st, hst, he⟩ | he
          · left
            exact ⟨st, by simp [alookup, h32, hst], he⟩
          · right; exact he

lemma organize_foldl_inv (pid ts : String) (results : List DicomInstance) :
    ∀ (l : List DicomInstance) (m : List (String × DicomStudy)),
      (∀ k st, alookup k m = some st →
        st.processing_info = mkProcessingInfo pid ts results) →
      ∀ k st,
        alookup k (l.foldl
          (fun m2 i => updateStudyMap pid ts results i (studyKeyOf i) m2) m) = some st →
        st.processing_info = mkProcessingInfo pid ts results := by
  intro l
  induction l with
  | nil => intro m hm k st h; exact hm k st h
  | cons i rest ih =>
      intro m hm k st h
      simp only [List.foldl_cons] at h
      refine ih _ ?_ k st h
      intro k2 st2 h2
      rcases updateStudyMap_lookup_cases pid ts results i (studyKeyOf i) m k2 st2 h2
        with ⟨st3, h3, he⟩ | he
      · exact he.trans (hm _ _ h3)
      · exact he

/-- C9: the processing info of the comprehensive flat output and of every study record
produced by the hierarchy aggregation reports `total_files` and `successful_files` both
equal to the number of successfully extracted instances and `failed_files = 0`,
whatever number of discovered candidate files actually failed extraction. -/
theorem c9_processing_info_totals (pid ts : String) (files : List String)
    (extract : String → Option DicomInstance) (k : String) (st : DicomStudy) :
    ((create_comprehensive_output pid ts
        (process_files_sequential files extract)).processing_info.total_files
          = (process_files_sequential files extract).length ∧
      (create_comprehensive_output pid ts
        (process_files_sequential files extract)).processing_info.successful_files
          = (process_files_sequential files extract).length ∧
      (create_comprehensive_output pid ts
        (process_files_sequential files extract)).processing_info.failed_files = 0) ∧
    (alookup k (organize_by_hierarchy pid ts (process_files_sequential files extract))
        = some st →
      st.processing_info.total_files = (process_files_sequential files extract).length ∧
      st.processing_info.successful_files
        = (process_files_sequential files extract).length ∧
      st.processing_info.failed_files = 0) := by
  constructor
  · exact ⟨rfl, rfl, rfl⟩
  · intro h
    have h2 := organize_foldl_inv pid ts (process_files_sequential files extract)
      (process_files_sequential files extract) [] (by intro k2 st2 h3; cases h3) k st h
    rw [h2]
    exact ⟨rfl, rfl, rfl⟩

/-- The study record the aggregation produces for the sample instance (the reference
value of the C9 witness). -/
def sampleStudy : DicomStudy :=
  { study_instance_uid := "unknown_study"
  , study_date := none
  , study_time := none
  , study_description := none
  , patient_info :=
      { patient_id := none, patient_name := none, patient_birth_date := none
      , patient_sex := none, patient_age := none }
  , series := [("unknown_series",
      { series_instance_uid := "unknown_series"
      , series_number := none
      , series_description := none
      , modality := some ("CT")
      , instances := [sampleInstance] })]
  , processing_info := mkProcessingInfo ("pid") ("ts") [sampleInstance] }

theorem c9_processing_info_totals_witness :
    (create_comprehensive_output ("pid") ("ts")
        (process_files_sequential ["f.dcm"]
          (fun _ => some sampleInstance))).processing_info.failed_files = 0 ∧
    sampleStudy.processing_info.total_files = 1 := by
  have h := c9_processing_info_totals ("pid") ("ts") ["f.dcm"]
    (fun _ => some sampleInstance) ("unknown_study") sampleStudy
  exact ⟨h.1.2.2, (h.2 (by rfl)).1⟩

end DicomJson
